import Mathlib

/-!
Shallow embedding of the campaign execution engine of the
WA-Website-Offer-Automation repository:

* `src/core/delay_manager.py` — rate-limit policy (`DelayManager`)
* `src/core/campaign_manager.py` — orchestration loop (`CampaignManager`)
* `src/utils/analytics_tracker.py` — metrics aggregation (`AnalyticsTracker`)

Timestamps are modelled by an explicit `Clock` value (date string, hour,
ISO rendering, epoch seconds) passed to every operation that reads the
wall clock, and random draws are passed as explicit parameters, so all
definitions are executable and deterministic.
-/

namespace WA

/-- Outcome tag of a single message attempt
(`MessageResult.status` in `campaign_manager.py`). -/
inductive Status where
  | success
  | failed
  | skipped
deriving DecidableEq, Repr, BEq

/-- A point in wall-clock time, as the pieces the code extracts from
`datetime.now()`: the date string `%Y-%m-%d`, the hour, the ISO rendering,
and an epoch-seconds value used for duration arithmetic. -/
structure Clock where
  date : String
  hour : Nat
  iso : String
  epoch : Rat := 0
deriving DecidableEq, Repr

/-- Structure `RateLimitConfig` from `delay_manager.py`, with its default values. -/
structure RateLimitConfig where
  min_message_delay : Nat := 20
  max_message_delay : Nat := 90
  messages_per_batch : Nat × Nat := (10, 20)
  min_batch_delay : Nat := 300
  max_batch_delay : Nat := 900
  max_messages_per_day : Nat := 50
  max_messages_per_hour : Nat := 15
  enable_delays : Bool := true
  enable_daily_limit : Bool := true
  enable_hourly_limit : Bool := true
deriving DecidableEq, Repr

/-- Structure `SendingStats` from `delay_manager.py`.  The two Python dicts
`hourly_counts` / `daily_counts` are modelled as association lists. -/
structure SendingStats where
  total_sent : Nat := 0
  sent_today : Nat := 0
  sent_this_hour : Nat := 0
  last_message_time : Option String := none
  last_batch_delay_time : Option String := none
  messages_since_batch_delay : Nat := 0
  next_batch_delay_at : Nat := 0
  current_date : Option String := none
  current_hour : Option Nat := none
  hourly_counts : List (String × Nat) := []
  daily_counts : List (String × Nat) := []
deriving DecidableEq, Repr

/-- Python dict assignment `m[k] = v`: overwrite the existing binding,
or append a new one. -/
def setKey (m : List (String × Nat)) (k : String) (v : Nat) : List (String × Nat) :=
  if m.any (fun p => p.1 = k) then
    m.map (fun p => if p.1 = k then (k, v) else p)
  else
    m ++ [(k, v)]

/-- Blocking reason returned by `can_send_message` (the code returns the
formatted reason string; the payload is the limit printed into it). -/
inductive BlockReason where
  | dailyLimitReached (limit : Nat)
  | hourlyLimitReached (limit : Nat)
deriving DecidableEq, Repr

/-- The reason string the code formats for each block reason. -/
def BlockReason.text : BlockReason → String
  | .dailyLimitReached n => "Daily limit reached (" ++ toString n ++ " messages)"
  | .hourlyLimitReached n => "Hourly limit reached (" ++ toString n ++ " messages)"

/-- The lazy date/hour bucket rollover performed at the start of
`DelayManager.can_send_message`: a changed date resets `sent_today`,
a changed hour resets `sent_this_hour`. -/
def rolloverBuckets (now : Clock) (s : SendingStats) : SendingStats :=
  let s1 :=
    if s.current_date ≠ some now.date then
      { s with current_date := some now.date, sent_today := 0 }
    else s
  if s1.current_hour ≠ some now.hour then
    { s1 with current_hour := some now.hour, sent_this_hour := 0 }
  else s1

/-- Method `DelayManager.can_send_message`: roll buckets over lazily, then check
the daily limit first, the hourly limit second.  Returns the updated
stats together with `(can_send, reason)`. -/
def can_send_message (cfg : RateLimitConfig) (now : Clock) (s : SendingStats) :
    SendingStats × Bool × Option BlockReason :=
  let s1 := rolloverBuckets now s
  if cfg.enable_daily_limit ∧ cfg.max_messages_per_day ≤ s1.sent_today then
    (s1, false, some (.dailyLimitReached cfg.max_messages_per_day))
  else if cfg.enable_hourly_limit ∧ cfg.max_messages_per_hour ≤ s1.sent_this_hour then
    (s1, false, some (.hourlyLimitReached cfg.max_messages_per_hour))
  else
    (s1, true, none)

/-- The key `now.strftime("%Y-%m-%d %H:00")` used for the hourly history. -/
def hourKey (now : Clock) : String :=
  now.date ++ " " ++ toString now.hour ++ ":00"

/-- Method `DelayManager.record_message_sent`: increment all four counters,
stamp `last_message_time`, and write the (post-increment) counters into
the history dicts. -/
def record_message_sent (now : Clock) (s : SendingStats) : SendingStats :=
  let s1 := { s with
    total_sent := s.total_sent + 1,
    sent_today := s.sent_today + 1,
    sent_this_hour := s.sent_this_hour + 1,
    messages_since_batch_delay := s.messages_since_batch_delay + 1,
    last_message_time := some now.iso }
  { s1 with
    hourly_counts := setKey s1.hourly_counts (hourKey now) s1.sent_this_hour,
    daily_counts := setKey s1.daily_counts now.date s1.sent_today }

/-- Iterates `record_message_sent` n times (n successive successful sends). -/
def record_message_sent_n (now : Clock) : Nat → SendingStats → SendingStats
  | 0, s => s
  | n + 1, s => record_message_sent_n now n (record_message_sent now s)

/-- Method `DelayManager._do_batch_delay` (the sleep itself is not modelled):
stamp `last_batch_delay_time`, reset the batch counter, redraw the next
threshold.  The random draw of `_reset_batch_threshold` is the explicit
`draw` argument. -/
def do_batch_delay (now : Clock) (draw : Nat) (s : SendingStats) : SendingStats :=
  { s with
    last_batch_delay_time := some now.iso,
    messages_since_batch_delay := 0,
    next_batch_delay_at := draw }

/-- Method `DelayManager.wait_between_messages` restricted to its effect on the
stats (sleeping is not modelled): with delays disabled and `force` false
it returns immediately; otherwise a reached batch threshold triggers
`_do_batch_delay`; a normal message delay leaves the stats unchanged. -/
def wait_between_messages (cfg : RateLimitConfig) (now : Clock) (draw : Nat)
    (force : Bool) (s : SendingStats) : SendingStats :=
  if cfg.enable_delays = false ∧ force = false then s
  else if s.next_batch_delay_at ≤ s.messages_since_batch_delay then
    do_batch_delay now draw s
  else s

/-- Structure `Business` from `models/business.py` (the fields the campaign uses). -/
structure Business where
  business_name : String
  phone : String
  description : Option String := none
  website : Option String := none
  google_maps_link : Option String := none
deriving DecidableEq, Repr

/-- Method `Business.has_website`: `bool(self.website and self.website.strip())`. -/
def Business.has_website (b : Business) : Bool :=
  match b.website with
  | some w => w.trim != ""
  | none => false

/-- Method `MessageComposer.detect_message_type`. -/
def detect_message_type (b : Business) : String :=
  if b.has_website then "enhancement" else "creation"

/-- Structure `MessageResult` from `campaign_manager.py`. -/
structure MessageResult where
  business_name : String
  phone : String
  message_type : String
  status : Status
  error : Option String := none
  timestamp : String
  message_preview : Option String := none
deriving DecidableEq, Repr

/-- Structure `CampaignProgress` from `campaign_manager.py`.  `start_time` /
`end_time` are kept in their ISO rendering. -/
structure CampaignProgress where
  total_businesses : Nat := 0
  processed : Nat := 0
  sent : Nat := 0
  failed : Nat := 0
  skipped : Nat := 0
  start_time : Option String := none
  end_time : Option String := none
  last_processed_index : Int := -1
  results : List MessageResult := []
deriving DecidableEq, Repr

/-- The `MessageResult` record built inside `CampaignManager._record_result`
(`message_preview = message[:80]`). -/
def mk_message_result (now : Clock) (b : Business) (status : Status)
    (error message : Option String) : MessageResult :=
  { business_name := b.business_name,
    phone := b.phone,
    message_type := detect_message_type b,
    status := status,
    error := error,
    timestamp := now.iso,
    message_preview := message.map (fun m => m.take 80) }

/-- Method `CampaignManager._record_result` restricted to its effect on
`self.progress`: append one `MessageResult` and bump the counter that
matches the status.  (The parallel analytics-tracker updates are modelled
separately with the `AnalyticsTracker` embedding.) -/
def record_result (now : Clock) (b : Business) (status : Status)
    (error message : Option String) (p : CampaignProgress) : CampaignProgress :=
  let p1 := { p with results := p.results ++ [mk_message_result now b status error message] }
  match status with
  | .success => { p1 with sent := p1.sent + 1 }
  | .failed => { p1 with failed := p1.failed + 1 }
  | .skipped => { p1 with skipped := p1.skipped + 1 }

/-- Behavior of the external transport for one recipient:
`WhatsAppController.send_message` returns `True`, returns `False`, or
raises an exception with the given message. -/
inductive TransportOutcome where
  | ok
  | sendFailed
  | raised (msg : String)
deriving DecidableEq, Repr

/-- The result dict returned by `CampaignManager._send_single_message`. -/
structure SendResult where
  status : Status
  error : Option String := none
  message : Option String := none
deriving DecidableEq, Repr

/-- Method `CampaignManager._send_single_message`: compose the message; in dry-run
mode report success without sending; otherwise call the transport, and on
success call `record_message_sent`.  A raised exception is caught and turned
into a failed result carrying `str(e)`; a `False` return becomes a failed
result with error `"Send operation failed"`. -/
def send_single_message (dry_run : Bool) (now : Clock) (compose : Business → String)
    (outcome : TransportOutcome) (b : Business) (s : SendingStats) :
    SendResult × SendingStats :=
  let message := compose b
  if dry_run then
    ({ status := .success, message := some message }, s)
  else
    match outcome with
    | .ok => ({ status := .success, message := some message }, record_message_sent now s)
    | .sendFailed =>
        ({ status := .failed, error := some "Send operation failed",
           message := some message }, s)
    | .raised e => ({ status := .failed, error := some e }, s)

/-- In-memory state threaded through the sending loop. -/
structure RunState where
  progress : CampaignProgress
  stats : SendingStats
deriving DecidableEq, Repr

/-- The `for i, business in enumerate(businesses)` loop body of
`CampaignManager._send_messages`: consult `can_send_message`; when blocked,
record the current business as skipped with the reason string and stop;
otherwise send, record the result, bump `processed`, set
`last_processed_index := i`, and (when this is not the last recipient and
the attempt succeeded) run `wait_between_messages`.  `n` is the length of
the list handed to the loop; the periodic `_save_progress` calls do not
change the in-memory state and are modelled with the persistence layer. -/
def send_messages_go (cfg : RateLimitConfig) (dry_run : Bool) (now : Clock)
    (compose : Business → String) (draw : Nat) (n : Nat) :
    Nat → List (Business × TransportOutcome) → RunState → RunState
  | _, [], st => st
  | i, (b, oc) :: rest, st =>
    let c := can_send_message cfg now st.stats
    if c.2.1 = false then
      { progress := record_result now b .skipped (c.2.2.map BlockReason.text) none st.progress,
        stats := c.1 }
    else
      let r := send_single_message dry_run now compose oc b c.1
      let p1 := record_result now b r.1.status r.1.error r.1.message st.progress
      let p2 := { p1 with processed := p1.processed + 1, last_processed_index := Int.ofNat i }
      let s2 :=
        if i < n - 1 ∧ r.1.status = Status.success then
          wait_between_messages cfg now draw false r.2
        else r.2
      send_messages_go cfg dry_run now compose draw n (i + 1) rest
        { progress := p2, stats := s2 }

/-- Method `CampaignManager._send_messages`: stamp `start_time`, run the loop over
the whole list, stamp `end_time`. -/
def send_messages (cfg : RateLimitConfig) (dry_run : Bool) (now : Clock)
    (compose : Business → String) (draw : Nat)
    (inputs : List (Business × TransportOutcome)) (st : RunState) : RunState :=
  let st0 := { st with progress := { st.progress with start_time := some now.iso } }
  let st1 := send_messages_go cfg dry_run now compose draw inputs.length 0 inputs st0
  { st1 with progress := { st1.progress with end_time := some now.iso } }

/-- The resume slice of `CampaignManager._load_businesses`: when
`last_processed_index >= 0`, keep `businesses[last_processed_index + 1:]`. -/
def load_businesses (all : List Business) (last_processed_index : Int) : List Business :=
  if 0 ≤ last_processed_index then
    all.drop (last_processed_index.toNat + 1)
  else all

/-- The JSON payload written by `CampaignManager._save_progress`
(exactly the six persisted fields). -/
structure ProgressData where
  last_processed_index : Int
  processed : Nat
  sent : Nat
  failed : Nat
  skipped : Nat
  start_time : Option String
deriving DecidableEq, Repr

/-- Method `CampaignManager._save_progress`: serialize the six persisted fields. -/
def save_progress (p : CampaignProgress) : ProgressData :=
  { last_processed_index := p.last_processed_index,
    processed := p.processed,
    sent := p.sent,
    failed := p.failed,
    skipped := p.skipped,
    start_time := p.start_time }

/-- Method `CampaignManager._load_progress`: assign the persisted fields onto the
in-memory progress (a fresh `CampaignProgress()` at construction time).
`start_time` is only assigned when the stored value is truthy, mirroring
`if progress_data.get('start_time'):`. -/
def load_progress (d : ProgressData) (p : CampaignProgress) : CampaignProgress :=
  let p1 := { p with
    last_processed_index := d.last_processed_index,
    processed := d.processed,
    sent := d.sent,
    failed := d.failed,
    skipped := d.skipped }
  match d.start_time with
  | some t => if t ≠ "" then { p1 with start_time := some t } else p1
  | none => p1

/-- The JSON payload written by `DelayManager._save_stats`
(every field of `SendingStats`). -/
structure StatsData where
  total_sent : Nat
  sent_today : Nat
  sent_this_hour : Nat
  last_message_time : Option String
  last_batch_delay_time : Option String
  messages_since_batch_delay : Nat
  next_batch_delay_at : Nat
  current_date : Option String
  current_hour : Option Nat
  hourly_counts : List (String × Nat)
  daily_counts : List (String × Nat)
deriving DecidableEq, Repr

/-- Method `DelayManager._save_stats`: serialize every stats field. -/
def save_stats (s : SendingStats) : StatsData :=
  { total_sent := s.total_sent,
    sent_today := s.sent_today,
    sent_this_hour := s.sent_this_hour,
    last_message_time := s.last_message_time,
    last_batch_delay_time := s.last_batch_delay_time,
    messages_since_batch_delay := s.messages_since_batch_delay,
    next_batch_delay_at := s.next_batch_delay_at,
    current_date := s.current_date,
    current_hour := s.current_hour,
    hourly_counts := s.hourly_counts,
    daily_counts := s.daily_counts }

/-- Method `DelayManager._load_stats`: assign the stored fields onto the in-memory
stats (a fresh `SendingStats()` at construction time).  The two datetime
fields are only assigned when truthy, mirroring
`if stats_data.get('last_message_time'):` and the batch-delay analogue. -/
def load_stats (d : StatsData) (s : SendingStats) : SendingStats :=
  let s1 := { s with
    total_sent := d.total_sent,
    sent_today := d.sent_today,
    sent_this_hour := d.sent_this_hour,
    messages_since_batch_delay := d.messages_since_batch_delay,
    next_batch_delay_at := d.next_batch_delay_at,
    current_date := d.current_date,
    current_hour := d.current_hour,
    hourly_counts := d.hourly_counts,
    daily_counts := d.daily_counts }
  let s2 :=
    match d.last_message_time with
    | some t => if t ≠ "" then { s1 with last_message_time := some t } else s1
    | none => s1
  match d.last_batch_delay_time with
  | some t => if t ≠ "" then { s2 with last_batch_delay_time := some t } else s2
  | none => s2

/-- Structure `BusinessAnalytics` from `analytics_tracker.py`; durations are
modelled as rationals. -/
structure BusinessAnalytics where
  business_name : String
  phone : String
  has_website : Bool
  message_type : String
  status : Status
  timestamp : String
  duration : Rat := 0
  retry_count : Nat := 0
  error : Option String := none
deriving DecidableEq, Repr

/-- Structure `CampaignMetrics` from `analytics_tracker.py`; times are epoch
seconds, rates and durations rationals. -/
structure CampaignMetrics where
  total_businesses : Nat := 0
  messages_sent : Nat := 0
  messages_failed : Nat := 0
  messages_skipped : Nat := 0
  creation_messages : Nat := 0
  enhancement_messages : Nat := 0
  start_time : Option Rat := none
  end_time : Option Rat := none
  total_duration : Rat := 0
  average_message_time : Rat := 0
  success_rate : Rat := 0
  rate_limit_hits : Nat := 0
  batch_delays_triggered : Nat := 0
deriving DecidableEq, Repr

/-- Method `AnalyticsTracker.end_campaign`: stamp `end_time`, compute
`total_duration`, set `success_rate` to
`messages_sent / (messages_sent + messages_failed) * 100` when at least one
message was attempted, and set `average_message_time` to the mean duration
of the *successful* attempts with strictly positive duration, when any
exist. -/
def end_campaign (now : Clock) (m : CampaignMetrics)
    (business_analytics : List BusinessAnalytics) : CampaignMetrics :=
  let m0 := { m with end_time := some now.epoch }
  let m1 :=
    match m.start_time with
    | some t => { m0 with total_duration := now.epoch - t }
    | none => m0
  let total_attempted := m.messages_sent + m.messages_failed
  let m2 :=
    if 0 < total_attempted then
      { m1 with success_rate :=
          ((m.messages_sent : Rat) / (total_attempted : Rat)) * 100 }
    else m1
  let successful_timings :=
    (business_analytics.filter
      (fun ba => ba.status == Status.success && decide (0 < ba.duration))).map
      (fun ba => ba.duration)
  if successful_timings.isEmpty then m2
  else
    { m2 with average_message_time :=
        successful_timings.sum / (successful_timings.length : Rat) }

/-- The claim's reading of the finalization step (from the spec text, for
comparison with `end_campaign`): success rate `sent / (sent + failed)`
with divide-by-zero guarded to 0, and mean duration over *all* attempts
whose duration is strictly positive. -/
def finalize_per_claim (sent failed : Nat)
    (business_analytics : List BusinessAnalytics) : Rat × Rat :=
  let rate := if sent + failed = 0 then 0 else (sent : Rat) / ((sent + failed : Nat) : Rat)
  let timings :=
    (business_analytics.filter (fun ba => decide (0 < ba.duration))).map
      (fun ba => ba.duration)
  let avg := if timings.isEmpty then 0 else timings.sum / (timings.length : Rat)
  (rate, avg)

/-- One low-level file operation performed by a persistence write.
`open(path, "w")` truncates the destination in place; `json.dump` then
writes the serialized text. -/
inductive FileOp where
  | openTrunc
  | writeAll (data : String)
deriving DecidableEq, Repr

/-- Effect of one file operation on the file content
(`none` = file absent). -/
def applyFileOp (_content : Option String) (op : FileOp) : Option String :=
  match op with
  | .openTrunc => some ""
  | .writeAll d => some d

/-- Run a sequence of file operations against the current content. -/
def runFileOps (content : Option String) (ops : List FileOp) : Option String :=
  ops.foldl applyFileOp content

/-- The operation sequence performed by both `CampaignManager._save_progress`
and `DelayManager._save_stats`: a truncating in-place `open` of the
destination file followed by the write of the serialized data — there is no
write-to-temp-then-rename step. -/
def save_write_ops (data : String) : List FileOp :=
  [.openTrunc, .writeAll data]

/-- Crash-atomicity of a write sequence: interrupted after any prefix of
the operations, the file still holds either the old or the new content. -/
def atomicWrite (ops : List FileOp) (old new : String) : Prop :=
  ∀ k, runFileOps (some old) (ops.take k) = some old ∨
       runFileOps (some old) (ops.take k) = some new

/-- The attempt status determined by a transport outcome in a live
(non-dry-run) send. -/
def transport_status : TransportOutcome → Status
  | .ok => .success
  | .sendFailed => .failed
  | .raised _ => .failed

/-- The error detail recorded for a transport outcome in a live send. -/
def transport_error : TransportOutcome → Option String
  | .ok => none
  | .sendFailed => some "Send operation failed"
  | .raised e => some e

/-- The `MessageResult` the loop appends for one recipient when the rate
limiter allows the attempt (the result part of `_send_single_message`
does not depend on the current stats). -/
def expected_result (dry_run : Bool) (now : Clock) (compose : Business → String)
    (x : Business × TransportOutcome) : MessageResult :=
  let r := (send_single_message dry_run now compose x.2 x.1 {}).1
  mk_message_result now x.1 r.status r.error r.message

/-- A sequence of `_record_result` calls applied in order. -/
def record_result_seq
    (calls : List (Clock × Business × Status × Option String × Option String))
    (p : CampaignProgress) : CampaignProgress :=
  calls.foldl (fun q c => record_result c.1 c.2.1 c.2.2.1 c.2.2.2.1 c.2.2.2.2 q) p

/-- Amended finalization contract, written from the corrected spec words:
the success rate is the percentage `sent / (sent + failed) * 100` (0 when
nothing was attempted), and the mean duration is taken over the
*successful* attempts with strictly positive duration (0 when there are
none). -/
def finalize_amended (sent failed : Nat)
    (business_analytics : List BusinessAnalytics) : Rat × Rat :=
  let rate :=
    if sent + failed = 0 then 0
    else ((sent : Rat) / ((sent + failed : Nat) : Rat)) * 100
  let timings :=
    (business_analytics.filter
      (fun ba => ba.status == Status.success && decide (0 < ba.duration))).map
      (fun ba => ba.duration)
  let avg := if timings.isEmpty then 0 else timings.sum / (timings.length : Rat)
  (rate, avg)

/-! Concrete values used by the end-to-end scenarios, counterexamples and
witnesses. -/

/-- A fixed wall-clock instant (no rollover happens during a run). -/
def clock0 : Clock :=
  { date := "2025-10-16", hour := 10, iso := "2025-10-16T10:00:00", epoch := 0 }

/-- The i-th sample recipient (no website, so message type `creation`). -/
def biz (i : Nat) : Business :=
  { business_name := "B" ++ toString i, phone := "+62" ++ toString i }

/-- A trivial composer standing in for the external templating collaborator. -/
def composeHello : Business → String := fun _ => "hello"

/-- Scenario config for the hourly-limit stop: `maxPerHour = 3`, delays
disabled, all other settings default. -/
def cfg1 : RateLimitConfig := { max_messages_per_hour := 3, enable_delays := false }

/-- Five recipients whose transport sends all succeed. -/
def inputs5 : List (Business × TransportOutcome) :=
  (List.range 5).map (fun i => (biz i, .ok))

/-- The hourly-limit scenario run: `maxPerHour = 3`, 5 recipients, delays
disabled, transport always succeeds, fresh progress and stats. -/
def run1 : RunState :=
  send_messages cfg1 false clock0 composeHello 0 inputs5 ⟨{}, {}⟩

/-- Stats sitting exactly at the hourly cap of `cfg1`, with bucket labels
matching `clock0`. -/
def statsAtHourlyCap : SendingStats :=
  { sent_this_hour := 3, current_date := some clock0.date,
    current_hour := some clock0.hour }

/-- Carried-over stats whose batch-delay threshold is already reached. -/
def statsBatchPending : SendingStats :=
  { messages_since_batch_delay := 10, next_batch_delay_at := 10,
    current_date := some clock0.date, current_hour := some clock0.hour }

/-- Two recipients, transport succeeding, for the dry-run scenario. -/
def inputs2 : List (Business × TransportOutcome) := [(biz 0, .ok), (biz 1, .ok)]

/-- Dry-run campaign over `inputs2` with default config (delays enabled)
starting from `statsBatchPending`. -/
def run10 : RunState :=
  send_messages {} true clock0 composeHello 15 inputs2 ⟨{}, statsBatchPending⟩

/-- A sample recorded attempt, for the persistence counterexample. -/
def sampleResult : MessageResult :=
  { business_name := "B0", phone := "+620", message_type := "creation",
    status := .success, timestamp := clock0.iso }

/-- A progress value holding one recorded attempt. -/
def progressWithResult : CampaignProgress :=
  { processed := 1, sent := 1, last_processed_index := 0,
    results := [sampleResult] }

/-- Analytics of two attempts: a successful one of duration 3 and a failed
one of duration 5. -/
def analytics2 : List BusinessAnalytics :=
  [{ business_name := "B0", phone := "+620", has_website := false,
     message_type := "creation", status := .success,
     timestamp := clock0.iso, duration := 3 },
   { business_name := "B1", phone := "+621", has_website := false,
     message_type := "creation", status := .failed,
     timestamp := clock0.iso, duration := 5, error := some "timeout" }]

/-- Metrics after one sent and one failed message. -/
def metrics2 : CampaignMetrics := { messages_sent := 1, messages_failed := 1 }

/-- A config with both hard limits disabled. -/
def cfgNoLimits : RateLimitConfig :=
  { enable_daily_limit := false, enable_hourly_limit := false }

/-- A config with a daily cap of 4 (other settings default). -/
def cfgDaily4 : RateLimitConfig := { max_messages_per_day := 4 }

/-- Fresh stats whose bucket labels already match `clock0`. -/
def statsBucketed : SendingStats :=
  { current_date := some clock0.date, current_hour := some clock0.hour }

/-- Three recipients: the transport succeeds for the first, raises for the
second, and returns failure for the third. -/
def inputs3 : List (Business × TransportOutcome) :=
  [(biz 0, .ok), (biz 1, .raised "boom"), (biz 2, .sendFailed)]

/-- A run state whose stats sit at the hourly cap of `cfg1`. -/
def stBlocked : RunState := ⟨{}, statsAtHourlyCap⟩

/-- Three recorded calls, one per outcome. -/
def calls3 : List (Clock × Business × Status × Option String × Option String) :=
  [(clock0, biz 0, .success, none, some "hello"),
   (clock0, biz 1, .failed, some "boom", none),
   (clock0, biz 2, .skipped, some "limit", none)]

/-- A three-recipient original list for the resume witness. -/
def allBiz3 : List Business := [biz 0, biz 1, biz 2]

/-- Restored progress of a run that had processed index 0 (one recipient). -/
def progressResumed : CampaignProgress := { processed := 1 }

/-! Helper lemmas about the embedded operations. -/

theorem record_result_results (now : Clock) (b : Business) (status : Status)
    (error message : Option String) (p : CampaignProgress) :
    (record_result now b status error message p).results
      = p.results ++ [mk_message_result now b status error message] := by
  cases status <;> rfl

theorem record_result_processed (now : Clock) (b : Business) (status : Status)
    (error message : Option String) (p : CampaignProgress) :
    (record_result now b status error message p).processed = p.processed := by
  cases status <;> rfl

theorem record_result_sent_of_skipped (now : Clock) (b : Business)
    (error message : Option String) (p : CampaignProgress) :
    (record_result now b .skipped error message p).sent = p.sent := rfl

theorem send_single_fst (dry_run : Bool) (now : Clock) (compose : Business → String)
    (oc : TransportOutcome) (b : Business) (s1 s2 : SendingStats) :
    (send_single_message dry_run now compose oc b s1).1
      = (send_single_message dry_run now compose oc b s2).1 := by
  cases dry_run <;> cases oc <;> rfl

theorem can_send_no_limits (cfg : RateLimitConfig) (now : Clock) (s : SendingStats)
    (hD : cfg.enable_daily_limit = false) (hH : cfg.enable_hourly_limit = false) :
    can_send_message cfg now s = (rolloverBuckets now s, true, none) := by
  simp [can_send_message, hD, hH]

/-- With both hard limits disabled the loop records exactly one result per
recipient (none is skipped) and bumps `processed` once per recipient. -/
theorem go_no_limits (cfg : RateLimitConfig) (dry_run : Bool) (now : Clock)
    (compose : Business → String) (draw n : Nat)
    (hD : cfg.enable_daily_limit = false) (hH : cfg.enable_hourly_limit = false) :
    ∀ (inputs : List (Business × TransportOutcome)) (i : Nat) (st : RunState),
      (send_messages_go cfg dry_run now compose draw n i inputs st).progress.results
        = st.progress.results ++ inputs.map (expected_result dry_run now compose) ∧
      (send_messages_go cfg dry_run now compose draw n i inputs st).progress.processed
        = st.progress.processed + inputs.length := by
  intro inputs
  induction inputs with
  | nil => intro i st; simp [send_messages_go]
  | cons x rest ih =>
    intro i st
    obtain ⟨b, oc⟩ := x
    rw [send_messages_go]
    rw [can_send_no_limits cfg now st.stats hD hH]
    simp only [Prod.fst, Prod.snd]
    rw [if_neg (by simp)]
    constructor
    · rw [(ih (i + 1) _).1]
      simp [record_result_results, expected_result,
            send_single_fst dry_run now compose oc b (rolloverBuckets now st.stats) {}]
    · rw [(ih (i + 1) _).2]
      simp [record_result_processed]
      omega

/-- Behavior of `send_messages` under disabled limits: the start/end timestamps do not
affect the per-recipient results or the processed count. -/
theorem send_messages_spec_no_limits (cfg : RateLimitConfig) (dry_run : Bool)
    (now : Clock) (compose : Business → String) (draw : Nat)
    (hD : cfg.enable_daily_limit = false) (hH : cfg.enable_hourly_limit = false)
    (inputs : List (Business × TransportOutcome)) (st : RunState) :
    (send_messages cfg dry_run now compose draw inputs st).progress.results
      = st.progress.results ++ inputs.map (expected_result dry_run now compose) ∧
    (send_messages cfg dry_run now compose draw inputs st).progress.processed
      = st.progress.processed + inputs.length := by
  have h := go_no_limits cfg dry_run now compose draw inputs.length hD hH inputs 0
    { st with progress := { st.progress with start_time := some now.iso } }
  unfold send_messages
  exact ⟨by simpa using h.1, by simpa using h.2⟩

theorem record_message_sent_n_spec (now : Clock) :
    ∀ (n : Nat) (s : SendingStats),
      (record_message_sent_n now n s).sent_today = s.sent_today + n ∧
      (record_message_sent_n now n s).current_date = s.current_date
  | 0, s => by simp [record_message_sent_n]
  | n + 1, s => by
    have h := record_message_sent_n_spec now n (record_message_sent now s)
    rw [record_message_sent_n]
    refine ⟨?_, ?_⟩
    · rw [h.1]
      show s.sent_today + 1 + n = s.sent_today + (n + 1)
      omega
    · rw [h.2]
      rfl

theorem rollover_of_buckets_eq (now : Clock) (s : SendingStats)
    (hd : s.current_date = some now.date) (hh : s.current_hour = some now.hour) :
    rolloverBuckets now s = s := by
  simp [rolloverBuckets, hd, hh]

theorem rollover_sent_today_of_date_eq (now : Clock) (s : SendingStats)
    (hd : s.current_date = some now.date) :
    (rolloverBuckets now s).sent_today = s.sent_today := by
  unfold rolloverBuckets
  simp only [hd, ne_eq, not_true_eq_false, if_false, reduceIte]
  split <;> rfl

theorem load_businesses_eq_drop (all : List Business) (k : Int) (hk : -1 ≤ k) :
    load_businesses all k = all.drop ((k + 1).toNat) := by
  unfold load_businesses
  by_cases h : 0 ≤ k
  · rw [if_pos h]
    congr 1
    omega
  · rw [if_neg h]
    have h0 : (k + 1).toNat = 0 := by omega
    rw [h0, List.drop_zero]

theorem wait_preserves_counters (cfg : RateLimitConfig) (now : Clock) (draw : Nat)
    (force : Bool) (s : SendingStats) :
    (wait_between_messages cfg now draw force s).total_sent = s.total_sent ∧
    (wait_between_messages cfg now draw force s).sent_today = s.sent_today ∧
    (wait_between_messages cfg now draw force s).sent_this_hour = s.sent_this_hour ∧
    (wait_between_messages cfg now draw force s).current_date = s.current_date ∧
    (wait_between_messages cfg now draw force s).current_hour = s.current_hour := by
  unfold wait_between_messages do_batch_delay
  split_ifs <;> exact ⟨rfl, rfl, rfl, rfl, rfl⟩

theorem expected_result_status_error (now : Clock) (compose : Business → String)
    (x : Business × TransportOutcome) :
    ((expected_result false now compose x).status, (expected_result false now compose x).error)
      = (transport_status x.2, transport_error x.2) := by
  obtain ⟨b, oc⟩ := x
  cases oc <;> rfl

theorem expected_result_name (dry_run : Bool) (now : Clock) (compose : Business → String)
    (x : Business × TransportOutcome) :
    (expected_result dry_run now compose x).business_name = x.1.business_name := rfl


theorem can_send_fst (cfg : RateLimitConfig) (now : Clock) (s : SendingStats) :
    (can_send_message cfg now s).1 = rolloverBuckets now s := by
  unfold can_send_message
  dsimp only
  split_ifs <;> rfl

theorem record_result_sent_of_success (now : Clock) (b : Business)
    (error message : Option String) (p : CampaignProgress) :
    (record_result now b .success error message p).sent = p.sent + 1 := rfl

theorem go_cons_blocked (cfg : RateLimitConfig) (dry_run : Bool) (now : Clock)
    (compose : Business → String) (draw n i : Nat) (b : Business)
    (oc : TransportOutcome) (rest : List (Business × TransportOutcome))
    (st : RunState) (hb : (can_send_message cfg now st.stats).2.1 = false) :
    send_messages_go cfg dry_run now compose draw n i ((b, oc) :: rest) st
      = { progress := record_result now b .skipped
            ((can_send_message cfg now st.stats).2.2.map BlockReason.text) none st.progress,
          stats := (can_send_message cfg now st.stats).1 } := by
  rw [send_messages_go, if_pos hb]

theorem go_cons_allowed_dry (cfg : RateLimitConfig) (now : Clock)
    (compose : Business → String) (draw n i : Nat) (b : Business)
    (oc : TransportOutcome) (rest : List (Business × TransportOutcome))
    (st : RunState) (hb : ¬((can_send_message cfg now st.stats).2.1 = false)) :
    send_messages_go cfg true now compose draw n i ((b, oc) :: rest) st
      = send_messages_go cfg true now compose draw n (i + 1) rest
          { progress :=
              { record_result now b .success none (some (compose b)) st.progress with
                processed :=
                  (record_result now b .success none (some (compose b)) st.progress).processed + 1,
                last_processed_index := Int.ofNat i },
            stats :=
              if i < n - 1 then
                wait_between_messages cfg now draw false (can_send_message cfg now st.stats).1
              else (can_send_message cfg now st.stats).1 } := by
  rw [send_messages_go, if_neg hb]
  have hsend : send_single_message true now compose oc b (can_send_message cfg now st.stats).1
      = ({ status := .success, error := none, message := some (compose b) },
         (can_send_message cfg now st.stats).1) := rfl
  simp only [hsend]
  by_cases hw : i < n - 1
  · rw [if_pos ⟨hw, trivial⟩, if_pos hw]
  · rw [if_neg (fun hcon => hw hcon.1), if_neg hw]



theorem go_dry_preserves (cfg : RateLimitConfig) (now : Clock)
    (compose : Business → String) (draw n : Nat) :
    ∀ (inputs : List (Business × TransportOutcome)) (i : Nat) (st : RunState),
      st.stats.current_date = some now.date →
      st.stats.current_hour = some now.hour →
      (send_messages_go cfg true now compose draw n i inputs st).stats.total_sent
          = st.stats.total_sent ∧
      (send_messages_go cfg true now compose draw n i inputs st).stats.sent_today
          = st.stats.sent_today ∧
      (send_messages_go cfg true now compose draw n i inputs st).stats.sent_this_hour
          = st.stats.sent_this_hour ∧
      ∃ new, (send_messages_go cfg true now compose draw n i inputs st).progress.results
            = st.progress.results ++ new ∧
        (send_messages_go cfg true now compose draw n i inputs st).progress.sent
            = st.progress.sent + (new.filter (fun r => r.status == Status.success)).length := by
  intro inputs
  induction inputs with
  | nil =>
    intro i st hd hh
    exact ⟨rfl, rfl, rfl, [], by simp [send_messages_go], by simp [send_messages_go]⟩
  | cons x rest ih =>
    intro i st hd hh
    obtain ⟨b, oc⟩ := x
    have hro : rolloverBuckets now st.stats = st.stats :=
      rollover_of_buckets_eq now st.stats hd hh
    have h1 : (can_send_message cfg now st.stats).1 = st.stats := by
      rw [can_send_fst, hro]
    by_cases hb : (can_send_message cfg now st.stats).2.1 = false
    · rw [go_cons_blocked cfg true now compose draw n i b oc rest st hb]
      refine ⟨?_, ?_, ?_,
        [mk_message_result now b .skipped
          ((can_send_message cfg now st.stats).2.2.map BlockReason.text) none], ?_, ?_⟩
      · rw [h1]
      · rw [h1]
      · rw [h1]
      · exact record_result_results now b .skipped _ none st.progress
      · rw [record_result_sent_of_skipped]
        simp [mk_message_result]
        rfl
    · rw [go_cons_allowed_dry cfg now compose draw n i b oc rest st hb]
      set p2 : CampaignProgress :=
        { record_result now b .success none (some (compose b)) st.progress with
          processed :=
            (record_result now b .success none (some (compose b)) st.progress).processed + 1,
          last_processed_index := Int.ofNat i } with hp2
      set s2 : SendingStats :=
        (if i < n - 1 then
          wait_between_messages cfg now draw false (can_send_message cfg now st.stats).1
        else (can_send_message cfg now st.stats).1) with hs2
      obtain ⟨hw1, hw2, hw3, hw4, hw5⟩ :=
        wait_preserves_counters cfg now draw false (can_send_message cfg now st.stats).1
      have hc1 : s2.total_sent = st.stats.total_sent := by
        rw [hs2]; split
        · rw [hw1, h1]
        · rw [h1]
      have hc2 : s2.sent_today = st.stats.sent_today := by
        rw [hs2]; split
        · rw [hw2, h1]
        · rw [h1]
      have hc3 : s2.sent_this_hour = st.stats.sent_this_hour := by
        rw [hs2]; split
        · rw [hw3, h1]
        · rw [h1]
      have hc4 : s2.current_date = some now.date := by
        rw [hs2]; split
        · rw [hw4, h1, hd]
        · rw [h1, hd]
      have hc5 : s2.current_hour = some now.hour := by
        rw [hs2]; split
        · rw [hw5, h1, hh]
        · rw [h1, hh]
      obtain ⟨iha, ihb2, ihc, new, ihr, ihs⟩ :=
        ih (i + 1) { progress := p2, stats := s2 } hc4 hc5
      refine ⟨?_, ?_, ?_,
        mk_message_result now b .success none (some (compose b)) :: new, ?_, ?_⟩
      · rw [iha, hc1]
      · rw [ihb2, hc2]
      · rw [ihc, hc3]
      · rw [ihr, hp2]
        simp [record_result_results]
      · rw [ihs]
        have e1 : p2.sent = st.progress.sent + 1 := by
          rw [hp2]
          exact record_result_sent_of_success now b none (some (compose b)) st.progress
        have e2 : (List.filter (fun r => r.status == Status.success)
            (mk_message_result now b .success none (some (compose b)) :: new)).length
            = (List.filter (fun r => r.status == Status.success) new).length + 1 := rfl
        show p2.sent + (List.filter (fun r => r.status == Status.success) new).length
            = st.progress.sent + (List.filter (fun r => r.status == Status.success)
                (mk_message_result now b .success none (some (compose b)) :: new)).length
        rw [e1, e2]
        omega



/-- C9: when `config.enable_delays` is false and `force` is false,
`wait_between_messages` returns immediately and leaves the stats — in
particular `messages_since_batch_delay` and `next_batch_delay_at` —
completely unchanged, so no batch delay is ever triggered while delays
are disabled. -/
theorem delays_disabled_wait_is_noop (cfg : RateLimitConfig) (now : Clock)
    (draw : Nat) (s : SendingStats) (h : cfg.enable_delays = false) :
    wait_between_messages cfg now draw false s = s := by
  simp [wait_between_messages, h]

/-- Witness for C9: `cfg1` has delays disabled and `statsBatchPending` has
its batch threshold already reached, yet the wait changes nothing. -/
theorem delays_disabled_wait_is_noop_witness :
    wait_between_messages cfg1 clock0 7 false statsBatchPending = statsBatchPending :=
  delays_disabled_wait_is_noop cfg1 clock0 7 statsBatchPending rfl

/-- C2: for every `RateLimitConfig` with `enable_daily_limit = true` and
`max_messages_per_day = N`, after exactly N calls to `record_message_sent`
within the same day bucket (stats whose date bucket matches the clock and
whose daily counter starts at 0), `can_send_message` returns `false` with
the daily-limit blocking reason. -/
theorem daily_limit_blocks_after_max (cfg : RateLimitConfig) (now : Clock)
    (s : SendingStats) (hEn : cfg.enable_daily_limit = true)
    (hDate : s.current_date = some now.date) (hZero : s.sent_today = 0) :
    (can_send_message cfg now
        (record_message_sent_n now cfg.max_messages_per_day s)).2.1 = false ∧
    (can_send_message cfg now
        (record_message_sent_n now cfg.max_messages_per_day s)).2.2
      = some (.dailyLimitReached cfg.max_messages_per_day) := by
  have h := record_message_sent_n_spec now cfg.max_messages_per_day s
  have hd : (record_message_sent_n now cfg.max_messages_per_day s).current_date
      = some now.date := by rw [h.2, hDate]
  have hst : cfg.max_messages_per_day ≤
      (rolloverBuckets now (record_message_sent_n now cfg.max_messages_per_day s)).sent_today := by
    rw [rollover_sent_today_of_date_eq now _ hd, h.1, hZero]
    omega
  have hc : can_send_message cfg now (record_message_sent_n now cfg.max_messages_per_day s)
      = (rolloverBuckets now (record_message_sent_n now cfg.max_messages_per_day s),
         false, some (.dailyLimitReached cfg.max_messages_per_day)) := by
    unfold can_send_message
    rw [if_pos ⟨hEn, hst⟩]
  rw [hc]
  exact ⟨rfl, rfl⟩

/-- Witness for C2: with a daily cap of 4, four recorded sends in the
bucket of `clock0` make the next `can_send_message` refuse with the
daily-limit reason. -/
theorem daily_limit_blocks_after_max_witness :
    (can_send_message cfgDaily4 clock0
        (record_message_sent_n clock0 cfgDaily4.max_messages_per_day statsBucketed)).2.1 = false ∧
    (can_send_message cfgDaily4 clock0
        (record_message_sent_n clock0 cfgDaily4.max_messages_per_day statsBucketed)).2.2
      = some (.dailyLimitReached cfgDaily4.max_messages_per_day) :=
  daily_limit_blocks_after_max cfgDaily4 clock0 statsBucketed rfl rfl rfl

/-- C8: after any sequence of `_record_result` calls (each status being
`success`, `failed` or `skipped`), the invariant
`sent + failed + skipped = results.length` is preserved: each call appends
exactly one `MessageResult` and increments exactly one counter. -/
theorem record_result_seq_counter_invariant
    (calls : List (Clock × Business × Status × Option String × Option String))
    (p : CampaignProgress)
    (h : p.sent + p.failed + p.skipped = p.results.length) :
    (record_result_seq calls p).sent + (record_result_seq calls p).failed
        + (record_result_seq calls p).skipped
      = (record_result_seq calls p).results.length := by
  induction calls generalizing p with
  | nil => simpa [record_result_seq] using h
  | cons c rest ih =>
    obtain ⟨now, b, status, e, m⟩ := c
    have hstep : record_result_seq ((now, b, status, e, m) :: rest) p
        = record_result_seq rest (record_result now b status e m p) := rfl
    rw [hstep]
    apply ih
    cases status <;> simp [record_result, mk_message_result] <;> omega

/-- Witness for C8: three recorded calls, one per status, starting from a
fresh progress. -/
theorem record_result_seq_counter_invariant_witness :
    (record_result_seq calls3 {}).sent + (record_result_seq calls3 {}).failed
        + (record_result_seq calls3 {}).skipped
      = (record_result_seq calls3 {}).results.length :=
  record_result_seq_counter_invariant calls3 {} rfl

/-- C1 counterexample: in the end-to-end scenario (`maxPerHour = 3`, five
recipients, delays disabled, transport always succeeding) the loop records
only the currently blocked recipient as skipped — 4 results with statuses
success, success, success, skipped and `skipped = 1` — not the claimed 3
successes followed by 2 skipped results with `skipped = 2`. -/
theorem rate_limit_stop_claim_counterexample :
    run1.progress.results.map (fun r => r.status)
        = [.success, .success, .success, .skipped] ∧
    run1.progress.skipped = 1 ∧
    ¬ (run1.progress.results.map (fun r => r.status)
        = [.success, .success, .success, .skipped, .skipped] ∧
       run1.progress.skipped = 2) := by
  decide

/-- C1 amended: when `can_send_message` refuses, the loop records only the
current recipient as skipped, carrying the blocking reason, and stops —
later recipients are left unrecorded; in the end-to-end scenario this gives
exactly 3 success results followed by 1 skipped result with the hourly
reason, `processed = 3`, and the recipient list not exhausted (4 of 5
recipients recorded). -/
theorem rate_limit_stop_amended :
    (∀ (cfg : RateLimitConfig) (dry_run : Bool) (now : Clock)
        (compose : Business → String) (draw n i : Nat) (b : Business)
        (oc : TransportOutcome) (rest : List (Business × TransportOutcome))
        (st : RunState),
        (can_send_message cfg now st.stats).2.1 = false →
        send_messages_go cfg dry_run now compose draw n i ((b, oc) :: rest) st
          = { progress := record_result now b .skipped
                ((can_send_message cfg now st.stats).2.2.map BlockReason.text)
                none st.progress,
              stats := (can_send_message cfg now st.stats).1 })
    ∧ run1.progress.results.map (fun r => (r.status, r.error))
        = [(.success, none), (.success, none), (.success, none),
           (.skipped, some "Hourly limit reached (3 messages)")]
    ∧ run1.progress.processed = 3
    ∧ run1.progress.sent = 3
    ∧ run1.progress.skipped = 1
    ∧ run1.progress.results.length = 4
    ∧ inputs5.length = 5 := by
  refine ⟨?_, by decide⟩
  intro cfg dry_run now compose draw n i b oc rest st h
  exact go_cons_blocked cfg dry_run now compose draw n i b oc rest st h

/-- Witness for C1 (amended): with stats sitting at the hourly cap, the
loop over two remaining recipients records only the first as skipped and
stops. -/
theorem rate_limit_stop_amended_witness :
    send_messages_go cfg1 false clock0 composeHello 0 5 3
        ((biz 3, .ok) :: [(biz 4, .ok)]) stBlocked
      = { progress := record_result clock0 (biz 3) .skipped
            ((can_send_message cfg1 clock0 stBlocked.stats).2.2.map BlockReason.text)
            none stBlocked.progress,
          stats := (can_send_message cfg1 clock0 stBlocked.stats).1 } :=
  rate_limit_stop_amended.1 cfg1 false clock0 composeHello 0 5 3 (biz 3) .ok
    [(biz 4, .ok)] stBlocked (by decide)



/-- C3: a run resumed with restored `last_processed_index = k`
(`-1 ≤ k < length`) feeds exactly the recipients at original indices
strictly greater than k, in original order, through the loop (one recorded
attempt per such recipient, in order), and — when no rate limit interferes
(both limits disabled) and the original run had processed indices 0..k
(`processed = k + 1`) — the final `processed` equals the original list
length. -/
theorem resume_processes_only_tail (cfg : RateLimitConfig) (dry_run : Bool)
    (now : Clock) (compose : Business → String) (draw : Nat)
    (hD : cfg.enable_daily_limit = false) (hH : cfg.enable_hourly_limit = false)
    (all : List Business) (k : Int) (hk1 : -1 ≤ k) (hk2 : k < (all.length : Int))
    (outcome : Business → TransportOutcome)
    (p0 : CampaignProgress) (s0 : SendingStats)
    (hres : p0.results = []) (hproc : p0.processed = (k + 1).toNat) :
    (send_messages cfg dry_run now compose draw
        ((load_businesses all k).map (fun b => (b, outcome b)))
        ⟨p0, s0⟩).progress.results.map (fun r => r.business_name)
      = (all.drop ((k + 1).toNat)).map (fun b => b.business_name) ∧
    (send_messages cfg dry_run now compose draw
        ((load_businesses all k).map (fun b => (b, outcome b)))
        ⟨p0, s0⟩).progress.processed = all.length := by
  obtain ⟨h1, h2⟩ := send_messages_spec_no_limits cfg dry_run now compose draw hD hH
    ((load_businesses all k).map (fun b => (b, outcome b))) ⟨p0, s0⟩
  constructor
  · rw [h1]
    show (p0.results ++ _).map _ = _
    rw [hres, load_businesses_eq_drop all k hk1]
    simp only [List.nil_append, List.map_map]
    have hfun : ((fun r : MessageResult => r.business_name)
          ∘ expected_result dry_run now compose ∘ fun b => (b, outcome b))
        = fun b : Business => b.business_name := by
      funext b
      rfl
    rw [hfun]
  · rw [h2]
    show p0.processed + _ = _
    rw [hproc]
    have hlen : ((load_businesses all k).map (fun b => (b, outcome b))).length
        = all.length - (k + 1).toNat := by
      rw [List.length_map, load_businesses_eq_drop all k hk1, List.length_drop]
    rw [hlen]
    omega

/-- Witness for C3: three recipients, resumed at k = 0 with `processed = 1`;
the run records exactly recipients at indices 1 and 2 and ends with
`processed = 3`. -/
theorem resume_processes_only_tail_witness :
    (send_messages cfgNoLimits false clock0 composeHello 0
        ((load_businesses allBiz3 0).map (fun b => (b, TransportOutcome.ok)))
        ⟨progressResumed, {}⟩).progress.results.map (fun r => r.business_name)
      = (allBiz3.drop 1).map (fun b => b.business_name) ∧
    (send_messages cfgNoLimits false clock0 composeHello 0
        ((load_businesses allBiz3 0).map (fun b => (b, TransportOutcome.ok)))
        ⟨progressResumed, {}⟩).progress.processed = allBiz3.length :=
  resume_processes_only_tail cfgNoLimits false clock0 composeHello 0 rfl rfl
    allBiz3 0 (by decide) (by decide) (fun _ => TransportOutcome.ok)
    progressResumed {} rfl (by decide)

/-- C4: with the hard limits out of the way, the loop records exactly one
attempt per recipient, in order: a transport failure or exception at any
position i becomes a `failed` result carrying the failure detail
(`"Send operation failed"` for a `False` return, the exception text for a
raise), and every later recipient is still attempted — a single transport
failure never aborts the campaign. -/
theorem transport_failure_never_aborts (cfg : RateLimitConfig) (now : Clock)
    (compose : Business → String) (draw : Nat) (s0 : SendingStats)
    (hD : cfg.enable_daily_limit = false) (hH : cfg.enable_hourly_limit = false)
    (inputs : List (Business × TransportOutcome)) (p0 : CampaignProgress)
    (hres : p0.results = []) :
    (send_messages cfg false now compose draw inputs ⟨p0, s0⟩).progress.results.length
      = inputs.length ∧
    (send_messages cfg false now compose draw inputs ⟨p0, s0⟩).progress.results.map
        (fun r => (r.status, r.error))
      = inputs.map (fun x => (transport_status x.2, transport_error x.2)) ∧
    ∀ i : Nat,
      ((send_messages cfg false now compose draw inputs ⟨p0, s0⟩).progress.results[i]?).map
          (fun r => (r.status, r.error))
        = (inputs[i]?).map (fun x => (transport_status x.2, transport_error x.2)) := by
  obtain ⟨h1, _⟩ := send_messages_spec_no_limits cfg false now compose draw hD hH
    inputs ⟨p0, s0⟩
  have hmap : (send_messages cfg false now compose draw inputs ⟨p0, s0⟩).progress.results.map
      (fun r => (r.status, r.error))
      = inputs.map (fun x => (transport_status x.2, transport_error x.2)) := by
    rw [h1]
    show (p0.results ++ _).map _ = _
    rw [hres]
    simp only [List.nil_append, List.map_map]
    have hfun : ((fun r : MessageResult => (r.status, r.error))
          ∘ expected_result false now compose)
        = fun x : Business × TransportOutcome =>
            (transport_status x.2, transport_error x.2) := by
      funext x
      exact expected_result_status_error now compose x
    rw [hfun]
  refine ⟨?_, hmap, ?_⟩
  · rw [h1]
    show (p0.results ++ _).length = _
    rw [hres]
    simp
  · intro i
    have hq := congrArg (fun l => l[i]?) hmap
    simpa [List.getElem?_map] using hq

/-- Witness for C4: three recipients where the second raises and the third
returns failure; all three are recorded with the correct statuses and
details. -/
theorem transport_failure_never_aborts_witness :
    (send_messages cfgNoLimits false clock0 composeHello 0 inputs3
        ⟨{}, {}⟩).progress.results.length = inputs3.length ∧
    (send_messages cfgNoLimits false clock0 composeHello 0 inputs3
        ⟨{}, {}⟩).progress.results.map (fun r => (r.status, r.error))
      = inputs3.map (fun x => (transport_status x.2, transport_error x.2)) ∧
    ∀ i : Nat,
      ((send_messages cfgNoLimits false clock0 composeHello 0 inputs3
          ⟨{}, {}⟩).progress.results[i]?).map (fun r => (r.status, r.error))
        = (inputs3[i]?).map
            (fun x => (transport_status x.2, transport_error x.2)) :=
  transport_failure_never_aborts cfgNoLimits clock0 composeHello 0 {} rfl rfl
    inputs3 {} rfl



/-- C5 counterexample: on one successful attempt of duration 3 and one
failed attempt of duration 5, `end_campaign` computes the success rate as
the percentage 50 (not the ratio 1/2 the claim states) and the mean
duration 3 over successful attempts only (not the claimed mean 4 over all
positive-duration attempts). -/
theorem finalize_claim_counterexample :
    (end_campaign clock0 metrics2 analytics2).success_rate = 50 ∧
    (end_campaign clock0 metrics2 analytics2).average_message_time = 3 ∧
    (finalize_per_claim 1 1 analytics2).1 = (1 : Rat) / 2 ∧
    (finalize_per_claim 1 1 analytics2).2 = 4 ∧
    (end_campaign clock0 metrics2 analytics2).success_rate
      ≠ (finalize_per_claim 1 1 analytics2).1 ∧
    (end_campaign clock0 metrics2 analytics2).average_message_time
      ≠ (finalize_per_claim 1 1 analytics2).2 := by
  have hb1 : (Status.success == Status.success) = true := rfl
  have hb2 : (Status.failed == Status.success) = false := rfl
  refine ⟨?_, ?_, ?_, ?_, ?_, ?_⟩ <;>
    norm_num [end_campaign, finalize_per_claim, metrics2, analytics2, clock0,
      hb1, hb2, List.filter, List.isEmpty]

/-- C5 amended: `end_campaign` computes the success rate as the percentage
`sent / (sent + failed) * 100` (0 when nothing was attempted) and the mean
attempt duration over the successful attempts with strictly positive
duration only (0 when there are none), exactly as `finalize_amended`
states. -/
theorem end_campaign_amended (now : Clock) (sent failed : Nat)
    (business_analytics : List BusinessAnalytics) :
    (end_campaign now { messages_sent := sent, messages_failed := failed }
        business_analytics).success_rate
      = (finalize_amended sent failed business_analytics).1 ∧
    (end_campaign now { messages_sent := sent, messages_failed := failed }
        business_analytics).average_message_time
      = (finalize_amended sent failed business_analytics).2 := by
  unfold end_campaign finalize_amended
  dsimp only
  constructor
  · split_ifs <;> first | rfl | omega
  · split_ifs <;> rfl

/-- C6 counterexample: a `CampaignProgress` holding one recorded attempt
does not round-trip through `_save_progress` / `_load_progress`: the
results list is not persisted, so the loaded value differs from the saved
one. -/
theorem progress_roundtrip_counterexample :
    load_progress (save_progress progressWithResult) {} ≠ progressWithResult := by
  decide

/-- C6 amended: `_save_progress` / `_load_progress` round-trip exactly the
six persisted fields (`last_processed_index`, `processed`, `sent`,
`failed`, `skipped`, `start_time`) onto a fresh progress — the unpersisted
`results`, `total_businesses` and `end_time` reset to defaults — and
`_save_stats` / `_load_stats` round-trip the whole `SendingStats`
(non-empty timestamp strings assumed, matching real ISO timestamps). -/
theorem save_load_roundtrip_amended (p : CampaignProgress) (s : SendingStats)
    (hp : p.start_time ≠ some "")
    (h1 : s.last_message_time ≠ some "")
    (h2 : s.last_batch_delay_time ≠ some "") :
    (load_progress (save_progress p) {}).last_processed_index = p.last_processed_index ∧
    (load_progress (save_progress p) {}).processed = p.processed ∧
    (load_progress (save_progress p) {}).sent = p.sent ∧
    (load_progress (save_progress p) {}).failed = p.failed ∧
    (load_progress (save_progress p) {}).skipped = p.skipped ∧
    (load_progress (save_progress p) {}).start_time = p.start_time ∧
    load_stats (save_stats s) {} = s := by
  refine ⟨?_, ?_, ?_, ?_, ?_, ?_, ?_⟩
  case refine_7 =>
    obtain ⟨ts, std, sth, lm, lb, msb, nb, cd, ch, hc, dc⟩ := s
    unfold load_stats save_stats
    dsimp only at h1 h2 ⊢
    cases lm with
    | none =>
      cases lb with
      | none => rfl
      | some u =>
        have hu : u ≠ "" := fun h => h2 (by rw [h])
        simp [hu]
    | some t =>
      have ht : t ≠ "" := fun h => h1 (by rw [h])
      cases lb with
      | none => simp [ht]
      | some u =>
        have hu : u ≠ "" := fun h => h2 (by rw [h])
        simp [ht, hu]
  all_goals
    unfold load_progress save_progress
    dsimp only
    cases hst : p.start_time with
    | none => rfl
    | some t =>
      have ht : t ≠ "" := fun h => hp (by rw [hst, h])
      simp [ht]

/-- Witness for C6 (amended): the concrete progress with one result and
batch-pending stats round-trip on their persisted fields. -/
theorem save_load_roundtrip_amended_witness :
    (load_progress (save_progress progressWithResult) {}).last_processed_index
        = progressWithResult.last_processed_index ∧
    (load_progress (save_progress progressWithResult) {}).processed
        = progressWithResult.processed ∧
    (load_progress (save_progress progressWithResult) {}).sent
        = progressWithResult.sent ∧
    (load_progress (save_progress progressWithResult) {}).failed
        = progressWithResult.failed ∧
    (load_progress (save_progress progressWithResult) {}).skipped
        = progressWithResult.skipped ∧
    (load_progress (save_progress progressWithResult) {}).start_time
        = progressWithResult.start_time ∧
    load_stats (save_stats statsBatchPending) {} = statsBatchPending :=
  save_load_roundtrip_amended progressWithResult statsBatchPending
    (by decide) (by decide) (by decide)

/-- C7 counterexample: the persistence write sequence (truncating in-place
`open` followed by the write) is not crash-atomic — interrupted after the
truncation, the file holds neither the old nor the new content. -/
theorem save_write_not_atomic :
    ¬ atomicWrite (save_write_ops "new") "old" "new" := by
  intro h
  rcases h 1 with h1 | h1 <;> exact absurd h1 (by decide)

/-- C7 amended: `_save_progress` and `_save_stats` write directly to the
destination file: only the complete operation sequence yields the new
content, and an interruption between the truncating open and the write
leaves an empty file, destroying the previously saved state — there is no
write-to-temp-then-rename step. -/
theorem save_write_ops_behavior (old data : String) :
    runFileOps (some old) (save_write_ops data) = some data ∧
    runFileOps (some old) ((save_write_ops data).take 1) = some "" := by
  exact ⟨rfl, rfl⟩

/-- C10 counterexample: a dry-run campaign over two recipients starting
from carried-over stats whose batch threshold is already reached still
resets `messages_since_batch_delay` (10 becomes 0) via the batch delay
taken after the first successful attempt — the claim that it stays
unchanged across the whole dry-run campaign is false.  (The claim's other
counters do stay unchanged: `total_sent` remains 0.) -/
theorem dry_run_claim_counterexample :
    run10.progress.sent = 2 ∧
    run10.stats.total_sent = 0 ∧
    run10.stats.messages_since_batch_delay = 0 ∧
    statsBatchPending.messages_since_batch_delay = 10 ∧
    run10.stats.messages_since_batch_delay
      ≠ statsBatchPending.messages_since_batch_delay := by
  decide

/-- C10 amended: a dry-run campaign never calls `record_message_sent`, so
`total_sent`, `sent_today` and `sent_this_hour` are unchanged across the
whole run (bucket labels matching the clock, so no rollover reset), and
`progress.sent` still increments exactly once per successful attempt; the
batch bookkeeping (`messages_since_batch_delay`) is however still subject
to a carried-over batch delay when delays are enabled. -/
theorem dry_run_preserves_sent_counters (cfg : RateLimitConfig) (now : Clock)
    (compose : Business → String) (draw : Nat)
    (inputs : List (Business × TransportOutcome)) (st : RunState)
    (hd : st.stats.current_date = some now.date)
    (hh : st.stats.current_hour = some now.hour) :
    (send_messages cfg true now compose draw inputs st).stats.total_sent
        = st.stats.total_sent ∧
    (send_messages cfg true now compose draw inputs st).stats.sent_today
        = st.stats.sent_today ∧
    (send_messages cfg true now compose draw inputs st).stats.sent_this_hour
        = st.stats.sent_this_hour ∧
    ∃ new, (send_messages cfg true now compose draw inputs st).progress.results
          = st.progress.results ++ new ∧
      (send_messages cfg true now compose draw inputs st).progress.sent
          = st.progress.sent
            + (new.filter (fun r => r.status == Status.success)).length := by
  obtain ⟨ha, hb, hc, new, hr, hs⟩ := go_dry_preserves cfg now compose draw
    inputs.length inputs 0
    { st with progress := { st.progress with start_time := some now.iso } } hd hh
  unfold send_messages
  exact ⟨by simpa using ha, by simpa using hb, by simpa using hc,
         new, by simpa using hr, by simpa using hs⟩

/-- Witness for C10 (amended): the concrete dry-run campaign of the
counterexample, where indeed only the batch bookkeeping changed. -/
theorem dry_run_preserves_sent_counters_witness :
    (send_messages {} true clock0 composeHello 15 inputs2
        ⟨{}, statsBatchPending⟩).stats.total_sent
      = (⟨{}, statsBatchPending⟩ : RunState).stats.total_sent ∧
    (send_messages {} true clock0 composeHello 15 inputs2
        ⟨{}, statsBatchPending⟩).stats.sent_today
      = (⟨{}, statsBatchPending⟩ : RunState).stats.sent_today ∧
    (send_messages {} true clock0 composeHello 15 inputs2
        ⟨{}, statsBatchPending⟩).stats.sent_this_hour
      = (⟨{}, statsBatchPending⟩ : RunState).stats.sent_this_hour ∧
    ∃ new, (send_messages {} true clock0 composeHello 15 inputs2
          ⟨{}, statsBatchPending⟩).progress.results
        = (⟨{}, statsBatchPending⟩ : RunState).progress.results ++ new ∧
      (send_messages {} true clock0 composeHello 15 inputs2
          ⟨{}, statsBatchPending⟩).progress.sent
        = (⟨{}, statsBatchPending⟩ : RunState).progress.sent
          + (new.filter (fun r => r.status == Status.success)).length :=
  dry_run_preserves_sent_counters {} clock0 composeHello 15 inputs2
    ⟨{}, statsBatchPending⟩ rfl rfl


end WA
